import Mathlib

/-!
Verification development for the OCR-VLM repository.

The Python source is shallowly embedded: pure functions become Lean
functions, exceptions become `Except`/`Option` values, and interactions
with external libraries (pdf2image, PIL, requests, the VLM endpoint) are
abstracted as oracle parameters recording the outcome of each external
call.  Every definition carries a comment naming the source location it
embeds.
-/

namespace OcrVlm

/-! ## JSON values

Models the Python values produced by `json.loads` (src/utils/json_parser.py
uses the standard-library `json` module).  Integer literals are represented
exactly; non-integer numeric literals (floats, NaN, Infinity) are kept as
their raw token, since the claims never compare float values. -/

/-- A JSON value as produced by Python's `json.loads`. -/
inductive Json where
  | null
  | bool (b : Bool)
  | num (n : Int)
  | fnum (raw : String)
  | str (s : String)
  | arr (elems : List Json)
  | obj (members : List (String × Json))

/-- Whitespace characters skipped by the Python json scanner. -/
def isJsonWs (c : Char) : Bool :=
  c = ' ' || c = '\t' || c = '\n' || c = '\r'

/-- Drop leading JSON whitespace. -/
def skipWs : List Char → List Char
  | [] => []
  | c :: cs => if isJsonWs c then skipWs cs else c :: cs

/-- Value of a hex digit, if any. -/
def hexVal (c : Char) : Option Nat :=
  if '0' ≤ c ∧ c ≤ '9' then some (c.toNat - '0'.toNat)
  else if 'a' ≤ c ∧ c ≤ 'f' then some (c.toNat - 'a'.toNat + 10)
  else if 'A' ≤ c ∧ c ≤ 'F' then some (c.toNat - 'A'.toNat + 10)
  else none

/-- Value of a decimal digit, if any. -/
def digitVal (c : Char) : Option Nat :=
  if '0' ≤ c ∧ c ≤ '9' then some (c.toNat - '0'.toNat) else none

/-- Split a character list into its leading run of decimal digits and the rest. -/
def takeDigits : List Char → List Char × List Char
  | [] => ([], [])
  | c :: cs =>
    if (digitVal c).isSome then
      let (ds, rest) := takeDigits cs
      (c :: ds, rest)
    else ([], c :: cs)

/-- Numeric value of a digit run (most significant first). -/
def digitsToNat (ds : List Char) : Nat :=
  ds.foldl (fun acc c => acc * 10 + ((digitVal c).getD 0)) 0

/-- Body of a JSON string literal, after the opening quote.  Returns the
decoded UTF-16 code units (in reverse-free order) and the input following
the closing quote.  Mirrors Python's strict string scanner: raw control
characters are rejected and the standard escapes are decoded. -/
def parseJStringAux : List Nat → List Char → Option (List Nat × List Char)
  | acc, '"' :: rest => some (acc.reverse, rest)
  | acc, '\\' :: '"' :: rest => parseJStringAux ('"'.toNat :: acc) rest
  | acc, '\\' :: '\\' :: rest => parseJStringAux ('\\'.toNat :: acc) rest
  | acc, '\\' :: '/' :: rest => parseJStringAux ('/'.toNat :: acc) rest
  | acc, '\\' :: 'b' :: rest => parseJStringAux (8 :: acc) rest
  | acc, '\\' :: 'f' :: rest => parseJStringAux (12 :: acc) rest
  | acc, '\\' :: 'n' :: rest => parseJStringAux (10 :: acc) rest
  | acc, '\\' :: 'r' :: rest => parseJStringAux (13 :: acc) rest
  | acc, '\\' :: 't' :: rest => parseJStringAux (9 :: acc) rest
  | acc, '\\' :: 'u' :: h1 :: h2 :: h3 :: h4 :: rest =>
    match hexVal h1, hexVal h2, hexVal h3, hexVal h4 with
    | some a, some b, some c, some d =>
      parseJStringAux ((((a * 16 + b) * 16 + c) * 16 + d) :: acc) rest
    | _, _, _, _ => none
  | _, '\\' :: _ => none
  | acc, c :: rest =>
    if c.toNat < 32 then none else parseJStringAux (c.toNat :: acc) rest
  | _, [] => none

/-- Turn decoded UTF-16 code units into characters, combining a high/low
surrogate pair into one code point as Python's json scanner does.  `pending`
holds a not-yet-emitted unit.  A lone surrogate, unrepresentable in a Lean
`Char`, maps to the null character via `Char.ofNat`. -/
def codeUnitsToChars (pending : Option Nat) : List Nat → List Char
  | [] =>
    match pending with
    | none => []
    | some n => [Char.ofNat n]
  | m :: rest =>
    match pending with
    | none => codeUnitsToChars (some m) rest
    | some n =>
      if 0xD800 ≤ n ∧ n ≤ 0xDBFF ∧ 0xDC00 ≤ m ∧ m ≤ 0xDFFF then
        Char.ofNat (0x10000 + (n - 0xD800) * 0x400 + (m - 0xDC00)) :: codeUnitsToChars none rest
      else
        Char.ofNat n :: codeUnitsToChars (some m) rest

/-- Parse a JSON string literal body (after the opening quote) into a Lean
string plus the remaining input. -/
def parseJString (cs : List Char) : Option (String × List Char) :=
  (parseJStringAux [] cs).map (fun p => (String.mk (codeUnitsToChars none p.1), p.2))

/-- A JSON number token (already past an optional minus handled by the
caller).  Returns the parsed value and the remaining input.  Pure integer
tokens become `Json.num`; tokens with a fraction or exponent are kept raw
as `Json.fnum`, matching Python's int/float distinction. -/
def parseJNumber (neg : Bool) (cs : List Char) : Option (Json × List Char) :=
  let (intDs, rest1) := takeDigits cs
  if intDs.isEmpty then none
  else
    let (fracDs, rest2) :=
      match rest1 with
      | '.' :: cs2 =>
        let (ds, r) := takeDigits cs2
        if ds.isEmpty then ([], rest1) else ('.' :: ds, r)
      | _ => ([], rest1)
    if fracDs.isEmpty ∧ rest2 = rest1 then
      -- no fraction part: check exponent
      match rest1 with
      | e :: cs2 =>
        if e = 'e' ∨ e = 'E' then
          match expPart cs2 with
          | some (expDs, r) =>
            some (Json.fnum (String.mk ((if neg then ['-'] else []) ++ intDs ++ e :: expDs)), r)
          | none => none
        else
          some (Json.num (intVal neg intDs), rest1)
      | [] => some (Json.num (intVal neg intDs), rest1)
    else
      match rest2 with
      | e :: cs2 =>
        if e = 'e' ∨ e = 'E' then
          match expPart cs2 with
          | some (expDs, r) =>
            some (Json.fnum (String.mk ((if neg then ['-'] else []) ++ intDs ++ fracDs ++ e :: expDs)), r)
          | none => none
        else
          some (Json.fnum (String.mk ((if neg then ['-'] else []) ++ intDs ++ fracDs)), rest2)
      | [] => some (Json.fnum (String.mk ((if neg then ['-'] else []) ++ intDs ++ fracDs)), rest2)
where
  /-- Signed integer value of a digit run. -/
  intVal (neg : Bool) (ds : List Char) : Int :=
    if neg then -(digitsToNat ds : Int) else (digitsToNat ds : Int)
  /-- Exponent part after the `e`/`E`: optional sign then digits. -/
  expPart (cs : List Char) : Option (List Char × List Char) :=
    match cs with
    | s :: cs2 =>
      if s = '+' ∨ s = '-' then
        let (ds, r) := takeDigits cs2
        if ds.isEmpty then none else some (s :: ds, r)
      else
        let (ds, r) := takeDigits cs
        if ds.isEmpty then none else some (ds, r)
    | [] => none

mutual

/-- Parse one JSON value (after skipping leading whitespace), fuel-bounded.
Follows Python's `json.loads` grammar, including its default acceptance of
`NaN`, `Infinity` and `-Infinity`. -/
def jsonParseValue : Nat → List Char → Option (Json × List Char)
  | 0, _ => none
  | fuel + 1, cs =>
    match skipWs cs with
    | '"' :: rest => (parseJString rest).map (fun p => (Json.str p.1, p.2))
    | '\x7b' :: rest => jsonParseMembers fuel rest true []
    | '[' :: rest => jsonParseItems fuel rest true []
    | 't' :: 'r' :: 'u' :: 'e' :: rest => some (Json.bool true, rest)
    | 'f' :: 'a' :: 'l' :: 's' :: 'e' :: rest => some (Json.bool false, rest)
    | 'n' :: 'u' :: 'l' :: 'l' :: rest => some (Json.null, rest)
    | 'N' :: 'a' :: 'N' :: rest => some (Json.fnum "NaN", rest)
    | 'I' :: 'n' :: 'f' :: 'i' :: 'n' :: 'i' :: 't' :: 'y' :: rest =>
      some (Json.fnum "Infinity", rest)
    | '-' :: 'I' :: 'n' :: 'f' :: 'i' :: 'n' :: 'i' :: 't' :: 'y' :: rest =>
      some (Json.fnum "-Infinity", rest)
    | '-' :: rest => parseJNumber true rest
    | cs2 => parseJNumber false cs2

/-- Parse array items after `[`.  `first` is true before any item. -/
def jsonParseItems (fuel : Nat) (cs : List Char) (first : Bool) (acc : List Json) :
    Option (Json × List Char) :=
  match fuel with
  | 0 => none
  | fuel + 1 =>
    match skipWs cs with
    | ']' :: rest =>
      if first then some (Json.arr acc.reverse, rest) else none
    | cs2 =>
      match jsonParseValue fuel cs2 with
      | none => none
      | some (v, rest) =>
        match skipWs rest with
        | ',' :: rest2 => jsonParseItems fuel rest2 false (v :: acc)
        | ']' :: rest2 => some (Json.arr (v :: acc).reverse, rest2)
        | _ => none

/-- Parse object members after an opening brace.  `first` is true before any
member. -/
def jsonParseMembers (fuel : Nat) (cs : List Char) (first : Bool)
    (acc : List (String × Json)) : Option (Json × List Char) :=
  match fuel with
  | 0 => none
  | fuel + 1 =>
    match skipWs cs with
    | '\x7d' :: rest =>
      if first then some (Json.obj acc.reverse, rest) else none
    | '"' :: rest =>
      match parseJString rest with
      | none => none
      | some (key, rest1) =>
        match skipWs rest1 with
        | ':' :: rest2 =>
          match jsonParseValue fuel rest2 with
          | none => none
          | some (v, rest3) =>
            match skipWs rest3 with
            | ',' :: rest4 => jsonParseMembers fuel rest4 false ((key, v) :: acc)
            | '\x7d' :: rest4 => some (Json.obj ((key, v) :: acc).reverse, rest4)
            | _ => none
        | _ => none
    | _ => none

end

/-- Python's `json.loads`: parse the whole string as one JSON document,
allowing surrounding whitespace, rejecting trailing data.  `none` models a
raised `json.JSONDecodeError`. -/
def json_loads (s : String) : Option Json :=
  let cs := s.toList
  match jsonParseValue (8 * (cs.length + 1)) cs with
  | none => none
  | some (v, rest) => if (skipWs rest).isEmpty then some v else none

/-! ## Model response parser

Embeds `JSONParser` from src/utils/json_parser.py. -/

/-- Index of the first opening bracket, if any.  Embeds the first loop of
`JSONParser.extract_json_substring` (src/utils/json_parser.py lines 27-32). -/
def findOpenBracket : List Char → Option Nat
  | [] => none
  | c :: rest =>
    if c = '\x7b' ∨ c = '[' then some 0
    else (findOpenBracket rest).map (· + 1)

/-- Bracket-matching scan of `JSONParser.extract_json_substring`
(src/utils/json_parser.py lines 37-70), started at the first opening
bracket.  `stack` holds the expected closing brackets, and the
`inString`/`escapeNext` flags skip brackets inside double-quoted string
literals exactly as the Python loop does.  Returns the length of the
balanced substring, or `none` when the brackets are unmatched or
mismatched. -/
def scanBrackets : List Char → List Char → Bool → Bool → Nat → Option Nat
  | [], _, _, _, _ => none
  | ch :: rest, stack, inString, escapeNext, pos =>
    let inString2 := if ch = '"' ∧ ¬escapeNext then ¬inString else inString
    let escapeNext2 := if ch = '\\' ∧ inString2 then ¬escapeNext else false
    if inString2 then
      scanBrackets rest stack inString2 escapeNext2 (pos + 1)
    else if ch = '\x7b' ∨ ch = '[' then
      scanBrackets rest ((if ch = '\x7b' then '\x7d' else ']') :: stack)
        inString2 escapeNext2 (pos + 1)
    else if ch = '\x7d' ∨ ch = ']' then
      match stack with
      | [] => none
      | expected :: stackRest =>
        if ch ≠ expected then none
        else if stackRest.isEmpty then some (pos + 1)
        else scanBrackets rest stackRest inString2 escapeNext2 (pos + 1)
    else
      scanBrackets rest stack inString2 escapeNext2 (pos + 1)

/-- Embeds `JSONParser.extract_json_substring` (src/utils/json_parser.py
lines 13-70): find the first complete JSON object or array substring. -/
def extract_json_substring (text : String) : Option String :=
  let cs := text.toList
  match findOpenBracket cs with
  | none => none
  | some start =>
    let tail := cs.drop start
    (scanBrackets tail [] false false 0).map (fun len => String.mk (tail.take len))

/-- A Python value that may arrive as the `content` argument of
`JSONParser.parse_model_response`, or be returned by it: either a value in
the image of `json.loads`, or an arbitrary string.  The

`pyNone`/`pyBool`/`pyInt`/`pyFloat` cases cover the non-dict/list/str
objects that the function returns unchanged. -/
inductive Content where
  | pyNone
  | pyBool (b : Bool)
  | pyInt (n : Int)
  | pyFloat (raw : String)
  | pyStr (s : String)
  | pyList (elems : List Json)
  | pyDict (members : List (String × Json))

/-- Convert a `json.loads` result into the Python value handed back to the
caller of `parse_model_response`. -/
def jsonToContent : Json → Content
  | .null => .pyNone
  | .bool b => .pyBool b
  | .num n => .pyInt n
  | .fnum raw => .pyFloat raw
  | .str s => .pyStr s
  | .arr xs => .pyList xs
  | .obj kvs => .pyDict kvs

/-- Embeds `JSONParser.parse_model_response` (src/utils/json_parser.py
lines 72-108): dict/list inputs pass through; strings are parsed as JSON,
falling back to the extracted bracket-balanced substring, falling back to
returning the original string; any other value passes through. -/
def parse_model_response (content : Content) : Content :=
  match content with
  | .pyDict kvs => .pyDict kvs
  | .pyList xs => .pyList xs
  | .pyStr s =>
    match json_loads s with
    | some v => jsonToContent v
    | none =>
      match extract_json_substring s with
      | some sub =>
        match json_loads sub with
        | some v => jsonToContent v
        | none => .pyStr s
      | none => .pyStr s
  | c => c

/-! ## VLM client retry primitive

Embeds `VLMService._make_request` (src/services/vlm_service.py lines
26-72).  The network is abstracted as a function from the current
`retry_count` to the outcome of that attempt's `requests.post` +
`raise_for_status` + `response.json()`. -/

/-- Outcome of one HTTP attempt of `VLMService._make_request`:
a parsed JSON body, a `requests.exceptions.Timeout`, a
`requests.exceptions.HTTPError` raised by `raise_for_status` (so the
status code is always 4xx or 5xx), or any other
`requests.exceptions.RequestException`. -/
inductive ReqOutcome (ρ : Type) where
  | success (resp : ρ)
  | timeout (msg : String)
  | httpError (statusCode : Nat) (body : String)
  | requestError (msg : String)
deriving DecidableEq

/-- Observable behaviour of one `_make_request` call tree: the value
returned or the `VLMAPIError` message raised, the total number of HTTP
attempts made, and the `time.sleep` durations in order. -/
structure RequestTrace (ρ : Type) where
  result : Except String ρ
  attempts : Nat
  sleeps : List ℚ

/-- The attempt outcomes that `_make_request` retries (while
`retry_count < max_retries`): a timeout, an HTTP error with status at
least 500, or any other transport-level request error.  A success or an
HTTP error below 500 is never retried. -/
def retryableOutcome {ρ : Type} : ReqOutcome ρ → Prop
  | .success _ => False
  | .timeout _ => True
  | .httpError s _ => 500 ≤ s
  | .requestError _ => True

/-- Embeds `VLMService._make_request` (src/services/vlm_service.py lines
26-72).  On timeout, on HTTP 5xx and on other transport errors the call
sleeps `retry_delay * (retry_count + 1)` seconds and recurses with
`retry_count + 1` while `retry_count < max_retries`; an HTTP error below
500 is never retried; exhaustion raises `VLMAPIError` with the message
built by the corresponding handler. -/
def make_request (net : Nat → ReqOutcome ρ) (maxRetries : Nat) (retryDelay : ℚ)
    (retryCount : Nat) : RequestTrace ρ :=
  match net retryCount with
  | .success r => ⟨.ok r, 1, []⟩
  | .timeout _ =>
    if _h : retryCount < maxRetries then
      let t := make_request net maxRetries retryDelay (retryCount + 1)
      ⟨t.result, t.attempts + 1, retryDelay * ((retryCount + 1 : Nat) : ℚ) :: t.sleeps⟩
    else
      ⟨.error ("Request timeout after " ++ toString (maxRetries + 1) ++ " attempts"), 1, []⟩
  | .httpError status body =>
    if _h : retryCount < maxRetries ∧ 500 ≤ status then
      let t := make_request net maxRetries retryDelay (retryCount + 1)
      ⟨t.result, t.attempts + 1, retryDelay * ((retryCount + 1 : Nat) : ℚ) :: t.sleeps⟩
    else
      ⟨.error ("HTTP error: " ++ toString status ++ " - " ++ body), 1, []⟩
  | .requestError msg =>
    if _h : retryCount < maxRetries then
      let t := make_request net maxRetries retryDelay (retryCount + 1)
      ⟨t.result, t.attempts + 1, retryDelay * ((retryCount + 1 : Nat) : ℚ) :: t.sleeps⟩
    else
      ⟨.error ("Request failed: " ++ msg), 1, []⟩
termination_by maxRetries - retryCount
decreasing_by all_goals omega

/-! ## Error taxonomy and rasterizer

Embeds src/exceptions.py and src/utils/image_processor.py.  A PDF is an
opaque value of the type parameter `Pdf`; the pdf2image call
`convert_from_bytes` and the PIL resize/save operations are oracle
functions whose `Except.error` carries the message of the raised
exception. -/

/-- Exceptions of src/exceptions.py that the embedded fragment raises;
the payload is the exception message (which is what Python's `str(e)`
yields for these classes). -/
inductive OcrError where
  | pdfProcessingError (msg : String)
  | imageProcessingError (msg : String)
  | schemaGenerationError (msg : String)
  | qualtricsError (msg : String)
deriving DecidableEq

/-- Message of an embedded exception, i.e. Python's `str(e)`. -/
def OcrError.message : OcrError → String
  | .pdfProcessingError m => m
  | .imageProcessingError m => m
  | .schemaGenerationError m => m
  | .qualtricsError m => m

/-- Status strings used in the result dictionaries of
src/services/extraction_service.py. -/
inductive Status where
  | success
  | error
deriving DecidableEq

section Service

variable {Pdf Page Schema Answers Mapping : Type}

/-- Embeds `ImageProcessor.pdf_to_images` (src/utils/image_processor.py
lines 71-87).  `convert` is the pdf2image `convert_from_bytes` call and
`maxPages` is `config.MAX_PDF_PAGES`; a document longer than `maxPages`
is truncated (with a log warning, not a failure), and a decode failure
is wrapped in `PDFProcessingError`. -/
def pdf_to_images (convert : Pdf → Except String (List Page)) (maxPages : Nat)
    (pdf : Pdf) : Except OcrError (List Page) :=
  match convert pdf with
  | .error e => .error (.pdfProcessingError ("PDF conversion failed: " ++ e))
  | .ok images =>
    .ok (if images.length > maxPages then images.take maxPages else images)

/-- Per-page loop of `ImageProcessor.pdf_to_base64_images`
(src/utils/image_processor.py lines 104-115): resize then base64-encode
each page, propagating the first failure.  `resizeOp` abstracts the PIL
operations inside `resize_image` (whose catch-all wraps failures as
`ImageProcessingError` with the prefix below, lines 36-53) and `encodeOp`
abstracts the PIL save + b64encode inside `image_to_base64`
(lines 63-69). -/
def encode_pages (resizeOp : Page → Except String Page)
    (encodeOp : Page → Except String String) : List Page → Except OcrError (List String)
  | [] => .ok []
  | p :: rest =>
    match resizeOp p with
    | .error e => .error (.imageProcessingError ("Image resize failed: " ++ e))
    | .ok rp =>
      match encodeOp rp with
      | .error e => .error (.imageProcessingError ("Base64 encoding failed: " ++ e))
      | .ok b =>
        match encode_pages resizeOp encodeOp rest with
        | .error e => .error e
        | .ok bs => .ok (b :: bs)

/-- Embeds `ImageProcessor.pdf_to_base64_images`
(src/utils/image_processor.py lines 89-120): rasterize then encode each
page, re-raising `PDFProcessingError`/`ImageProcessingError` unchanged. -/
def pdf_to_base64_images (convert : Pdf → Except String (List Page))
    (resizeOp : Page → Except String Page) (encodeOp : Page → Except String String)
    (maxPages : Nat) (pdf : Pdf) : Except OcrError (List String) :=
  match pdf_to_images convert maxPages pdf with
  | .error e => .error e
  | .ok images => encode_pages resizeOp encodeOp images

/-! ## Extraction service

Embeds `ExtractionService` (src/services/extraction_service.py).  The VLM
round trips of src/services/vlm_service.py are oracles: `genSchema` is
`VLMService.generate_schema_from_template`, `extractAns` is
`VLMService.extract_answers_from_form` and `vlmMap` is the body of
`VLMService.map_qualtrics_fields` past its blank-HTML check (a method that
swallows all of its own failures, returning `None`, hence an
`Option`-valued oracle).  An `Except.error` of `genSchema`/`extractAns`
carries `str(e)` of the raised exception. -/

/-- One page result dictionary of `ExtractionService.extract_from_pdf`
(src/services/extraction_service.py lines 151-165). -/
structure PageResult (Answers : Type) where
  page_index : Nat
  answers : Option Answers
  base64_image : String
  status : Status
  error : Option String
deriving DecidableEq

/-- File result dictionary of `ExtractionService.extract_from_pdf`
(src/services/extraction_service.py lines 130-136). -/
structure FileResult (Answers : Type) where
  filename : String
  pages : List (PageResult Answers)
  base64_images : List String
  status : Status
  error : Option String
deriving DecidableEq

/-- Top-level dictionary returned by `ExtractionService.extract_batch`
(src/services/extraction_service.py lines 204-211 and 226-233).  The
error-path dictionary has no `received_qualtrics_link` key and the
success-path dictionary has no `error` key; the two optional fields model
that. -/
structure BatchResult (Schema Answers Mapping : Type) where
  status : Status
  error : Option String
  json_schemas : List Schema
  results : List (FileResult Answers)
  template_base64_images : List String
  qualtrics_mapping : Option Mapping
  received_qualtrics_link : Option String
deriving DecidableEq

/-- Schema choice of src/services/extraction_service.py line 147 (and
src/api.py line 210): `schemas[page_idx] if page_idx < len(schemas) else
schemas[0]`.  `none` models the `IndexError` that `schemas[0]` raises on
an empty list. -/
def selectSchema (schemas : List Schema) (pageIdx : Nat) : Option Schema :=
  if pageIdx < schemas.length then schemas[pageIdx]? else schemas[0]?

/-- Page result built from the outcome of one
`VLMService.extract_answers_from_form` call
(src/services/extraction_service.py lines 149-165). -/
def pageOf (idx : Nat) (img : String) : Except String Answers → PageResult Answers
  | .ok ans => ⟨idx, some ans, img, .success, none⟩
  | .error e => ⟨idx, none, img, .error, some e⟩

/-- Per-page loop of `ExtractionService.extract_from_pdf`
(src/services/extraction_service.py lines 143-165).  Returns the page
results accumulated so far and, when the schema lookup itself raised
(only possible as `schemas[0]` on an empty list), the message of that
uncaught exception, which aborts the loop. -/
def extract_pages (extractAns : String → Schema → Except String Answers)
    (schemas : List Schema) : List String → Nat → List (PageResult Answers) × Option String
  | [], _ => ([], none)
  | img :: rest, idx =>
    match selectSchema schemas idx with
    | none => ([], some "list index out of range")
    | some schema =>
      let page := pageOf idx img (extractAns img schema)
      let t := extract_pages extractAns schemas rest (idx + 1)
      (page :: t.1, t.2)

/-- Embeds `ExtractionService.extract_from_pdf`
(src/services/extraction_service.py lines 113-178): rasterize the filled
PDF, then extract page by page; a rasterization failure yields a file
result with `status=error` and empty pages, a per-page extraction failure
yields an error page but processing continues. -/
def extract_from_pdf (convert : Pdf → Except String (List Page))
    (resizeOp : Page → Except String Page) (encodeOp : Page → Except String String)
    (extractAns : String → Schema → Except String Answers) (maxPages : Nat)
    (pdf : Pdf) (schemas : List Schema) (filename : String) : FileResult Answers :=
  match pdf_to_base64_images convert resizeOp encodeOp maxPages pdf with
  | .error (.pdfProcessingError m) =>
    ⟨filename, [], [], .error, some ("PDF processing failed: " ++ m)⟩
  | .error e =>
    ⟨filename, [], [], .error, some ("Unexpected error: " ++ e.message)⟩
  | .ok images =>
    let t := extract_pages extractAns schemas images 0
    match t.2 with
    | none => ⟨filename, t.1, images, .success, none⟩
    | some m => ⟨filename, t.1, images, .error, some ("Unexpected error: " ++ m)⟩

/-- Per-page loop of `ExtractionService.generate_schemas_from_template`
(src/services/extraction_service.py lines 44-48): one
`VLMService.generate_schema_from_template` call per template page, any
failure propagating. -/
def generate_schema_pages (genSchema : String → Except String Schema) :
    List String → Except String (List Schema)
  | [] => .ok []
  | img :: rest =>
    match genSchema img with
    | .error e => .error e
    | .ok s =>
      match generate_schema_pages genSchema rest with
      | .error e => .error e
      | .ok ss => .ok (s :: ss)

/-- Embeds `ExtractionService.generate_schemas_from_template`
(src/services/extraction_service.py lines 27-58): rasterize the template
and generate one schema per page; a `PDFProcessingError` is wrapped as
`SchemaGenerationError` with one prefix, every other failure with
another. -/
def generate_schemas_from_template (convert : Pdf → Except String (List Page))
    (resizeOp : Page → Except String Page) (encodeOp : Page → Except String String)
    (genSchema : String → Except String Schema) (maxPages : Nat)
    (template : Pdf) : Except OcrError (List Schema) :=
  match pdf_to_base64_images convert resizeOp encodeOp maxPages template with
  | .error (.pdfProcessingError m) =>
    .error (.schemaGenerationError ("Failed to process template PDF: " ++ m))
  | .error e =>
    .error (.schemaGenerationError ("Schema generation failed: " ++ e.message))
  | .ok images =>
    match generate_schema_pages genSchema images with
    | .error e => .error (.schemaGenerationError ("Schema generation failed: " ++ e))
    | .ok schemas => .ok schemas

/-- Embeds `ExtractionService.fetch_qualtrics_html`
(src/services/extraction_service.py lines 60-84).  `httpGet` models
`requests.get` followed by `raise_for_status`, its error being the
`RequestException` message (covering transport failures and non-2xx
statuses alike). -/
def fetch_qualtrics_html (httpGet : String → Except String String)
    (url : String) : Except OcrError String :=
  if url.trim = "" then .ok ""
  else
    match httpGet url with
    | .ok html => .ok html
    | .error e => .error (.qualtricsError ("Failed to fetch Qualtrics page: " ++ e))

/-- Embeds `VLMService.map_qualtrics_fields` (src/services/vlm_service.py
lines 205-262): blank HTML short-circuits to `None`; otherwise the VLM
round trip runs, itself converting any `VLMAPIError` or malformed
response into `None`, so the oracle `vlmMap` is `Option`-valued. -/
def vlm_map_qualtrics_fields (vlmMap : String → List Schema → Option Mapping)
    (qualtricsHtml : String) (schemas : List Schema) : Option Mapping :=
  if qualtricsHtml.trim = "" then none else vlmMap qualtricsHtml schemas

/-- Embeds `ExtractionService.map_qualtrics_fields`
(src/services/extraction_service.py lines 86-111): blank URL yields
`None`; a `QualtricsError` from the fetch is caught and yields `None`;
otherwise the VLM mapping result is returned. -/
def map_qualtrics_fields (httpGet : String → Except String String)
    (vlmMap : String → List Schema → Option Mapping)
    (qualtricsUrl : String) (schemas : List Schema) : Option Mapping :=
  if qualtricsUrl.trim = "" then none
  else
    match fetch_qualtrics_html httpGet qualtricsUrl with
    | .error _ => none
    | .ok html => vlm_map_qualtrics_fields vlmMap html schemas

/-- Embeds `ExtractionService.extract_batch`
(src/services/extraction_service.py lines 180-233).  A
`SchemaGenerationError` from the template stage is caught and becomes the
error-path dictionary with empty schemas and results; on the success path
the template is rasterized a second time with identical arguments (source
line 202) — an `Except.error` of the whole function models an exception
escaping `extract_batch` uncaught, which that second call would be the
only way to produce (unreachable, since the first call succeeded). -/
def extract_batch (convert : Pdf → Except String (List Page))
    (resizeOp : Page → Except String Page) (encodeOp : Page → Except String String)
    (genSchema : String → Except String Schema)
    (extractAns : String → Schema → Except String Answers)
    (httpGet : String → Except String String)
    (vlmMap : String → List Schema → Option Mapping) (maxPages : Nat)
    (template : Pdf) (pdf_files : List (String × Pdf))
    (qualtricsUrl : Option String) : Except OcrError (BatchResult Schema Answers Mapping) :=
  match generate_schemas_from_template convert resizeOp encodeOp genSchema maxPages template with
  | .error (.schemaGenerationError m) =>
    .ok ⟨.error, some m, [], [], [], none, none⟩
  | .error e => .error e
  | .ok schemas =>
    match pdf_to_base64_images convert resizeOp encodeOp maxPages template with
    | .error e => .error e
    | .ok template_images =>
      let qualtrics_mapping :=
        match qualtricsUrl with
        | none => none
        | some u =>
          if u = "" then none else map_qualtrics_fields httpGet vlmMap u schemas
      let results := pdf_files.map
        (fun f => extract_from_pdf convert resizeOp encodeOp extractAns maxPages f.2 schemas f.1)
      .ok ⟨.success, none, schemas, results, template_images, qualtrics_mapping,
        some (qualtricsUrl.getD "")⟩

end Service

/-! ## Legacy endpoint

Embeds the `/extract` endpoint of src/api.py (lines 118-273), the older
duplicate of the orchestration logic.  Its `pdf_to_base64_images`
(lines 38-60) has no internal error handling, so it is abstracted as one
oracle per PDF; the three `requests.post` round trips (template schema,
qualtrics mapping, per-page extraction), each followed by
`raise_for_status`, `.json()` indexing and `parse_model_json`, are
likewise oracles whose `Except.error` is the raised exception's
message. -/

namespace Api

variable {Pdf Schema Answers Mapping : Type}

/-- One entry of a file's `pages` list in src/api.py: either the page
dictionary of lines 247-251, or the error dictionary of line 254 appended
when an exception aborts that file's processing. -/
inductive ApiPageEntry (Answers : Type) where
  | page (page_index : Nat) (answers : Answers) (base64_image : String)
  | errorEntry (error : String)
deriving DecidableEq

/-- One entry of the endpoint's `results` list (src/api.py line 256). -/
structure ApiFileEntry (Answers : Type) where
  filename : String
  pages : List (ApiPageEntry Answers)
  base64_images : List String
deriving DecidableEq

/-- Response of the endpoint: either a `JSONResponse` with an error body
and a non-2xx status code (lines 158 and 168), or the success body of
lines 266-273.  Note the success body carries no `status` and no
`qualtrics_mapping` field. -/
inductive ApiResponse (Schema Answers : Type) where
  | errorResponse (status_code : Nat) (error : String)
  | success (json_schemas : List Schema) (results : List (ApiFileEntry Answers))
      (template_base64_images : List String) (received_qualtrics_link : String)
deriving DecidableEq

/-- Whether the endpoint returned its success-shaped body. -/
def ApiResponse.isSuccessResponse : ApiResponse Schema Answers → Bool
  | .success _ _ _ _ => true
  | .errorResponse _ _ => false

/-- Template-schema loop of src/api.py lines 132-156: one schema call per
template page, any exception propagating. -/
def apiSchemaLoop (schemaCall : String → Except String Schema) :
    List String → Except String (List Schema)
  | [] => .ok []
  | img :: rest =>
    match schemaCall img with
    | .error e => .error e
    | .ok s =>
      match apiSchemaLoop schemaCall rest with
      | .error e => .error e
      | .ok ss => .ok (s :: ss)

/-- Per-page loop of src/api.py lines 208-251.  There is no per-page
handler: the first failing extraction call (or the `IndexError` of
`json_schemas[0]` on an empty schema list) raises to the per-file handler
of line 252-254, which appends the error dictionary after the pages
already collected and ends that file's processing. -/
def apiFilePages (extractCall : String → Schema → Except String Answers)
    (schemas : List Schema) : List String → Nat → List (ApiPageEntry Answers)
  | [], _ => []
  | img :: rest, idx =>
    match selectSchema schemas idx with
    | none => [.errorEntry "Error processing file: list index out of range"]
    | some schema =>
      match extractCall img schema with
      | .error e => [.errorEntry ("Error processing file: " ++ e)]
      | .ok ans =>
        .page idx ans img :: apiFilePages extractCall schemas rest (idx + 1)

/-- Per-file processing of src/api.py lines 201-256: rasterize the file
and extract page by page; any exception is caught at the file boundary
and recorded as an error entry, with `base64_images` keeping whatever was
assigned before the exception. -/
def apiProcessFile (raster : Pdf → Except String (List String))
    (extractCall : String → Schema → Except String Answers)
    (schemas : List Schema) (filename : String) (pdf : Pdf) : ApiFileEntry Answers :=
  match raster pdf with
  | .error e => ⟨filename, [.errorEntry ("Error processing file: " ++ e)], []⟩
  | .ok imgs => ⟨filename, apiFilePages extractCall schemas imgs 0, imgs⟩

/-- Embeds the `/extract` endpoint of src/api.py (lines 118-273).
Step 1 failures return a 400 error response; a failing qualtrics fetch in
step 2 returns a 400 error response (line 168), whereas a failing
qualtrics *mapping* call is non-fatal (lines 195-198: `mapping_info`
becomes `None`, and it is not part of the response body anyway);
step 3 processes each file with per-file isolation. -/
def api_extract (raster : Pdf → Except String (List String))
    (schemaCall : String → Except String Schema)
    (httpGet : String → Except String String)
    (mapCall : String → List Schema → Except String Mapping)
    (extractCall : String → Schema → Except String Answers)
    (template : Pdf) (files : List (String × Pdf)) (qualtricsLink : String) :
    ApiResponse Schema Answers :=
  match raster template with
  | .error e => .errorResponse 400 ("Template processing failed: " ++ e)
  | .ok template_images =>
    match apiSchemaLoop schemaCall template_images with
    | .error e => .errorResponse 400 ("Template processing failed: " ++ e)
    | .ok json_schemas =>
      let fetched : Except String String :=
        if qualtricsLink = "" then .ok "" else httpGet qualtricsLink
      match fetched with
      | .error e => .errorResponse 400 ("Failed to fetch Qualtrics link: " ++ e)
      | .ok pageText =>
        let _mapping_info : Option Mapping :=
          match mapCall pageText json_schemas with
          | .ok m => some m
          | .error _ => none
        let results := files.map
          (fun f => apiProcessFile raster extractCall json_schemas f.1 f.2)
        .success json_schemas results template_images qualtricsLink

end Api

/-! ## Derived definitions used to state the claims -/

section StatementDefs

variable {Pdf Page Schema Answers Mapping : Type}

/-- Schema actually applied to page `k` when the schema list is nonempty:
entry `k` below the length, entry `0` otherwise. -/
def schemaAt (schemas : List Schema) (h0 : 0 < schemas.length) (k : Nat) : Schema :=
  if h : k < schemas.length then schemas.get ⟨k, h⟩ else schemas.get ⟨0, h0⟩

/-! Projections out of the `Except`-wrapped batch result, used to state
the batch claims without existential quantifiers. -/

/-- Status field of a returned batch result (`none` when `extract_batch`
itself raised). -/
def batchStatus : Except OcrError (BatchResult Schema Answers Mapping) → Option Status
  | .ok br => some br.status
  | .error _ => none

/-- Error field of a returned batch result. -/
def batchErrorMsg : Except OcrError (BatchResult Schema Answers Mapping) →
    Option (Option String)
  | .ok br => some br.error
  | .error _ => none

/-- Qualtrics mapping field of a returned batch result. -/
def batchMapping : Except OcrError (BatchResult Schema Answers Mapping) →
    Option (Option Mapping)
  | .ok br => some br.qualtrics_mapping
  | .error _ => none

/-- Schema list of a returned batch result. -/
def batchSchemas : Except OcrError (BatchResult Schema Answers Mapping) →
    Option (List Schema)
  | .ok br => some br.json_schemas
  | .error _ => none

/-- Number of per-file results of a returned batch result. -/
def batchResultsCount : Except OcrError (BatchResult Schema Answers Mapping) → Option Nat
  | .ok br => some br.results.length
  | .error _ => none

/-- File result at a given input position of a returned batch result. -/
def batchResultAt (x : Except OcrError (BatchResult Schema Answers Mapping)) (i : Nat) :
    Option (FileResult Answers) :=
  match x with
  | .ok br => br.results[i]?
  | .error _ => none

/-- The full per-file results list of a returned batch result. -/
def batchResults : Except OcrError (BatchResult Schema Answers Mapping) →
    Option (List (FileResult Answers))
  | .ok br => some br.results
  | .error _ => none

end StatementDefs

/-! ## Claims about the model response parser -/

/-- Claim C7: the parser's substring recovery is bracket matching that
treats brackets inside double-quoted string literals as non-structural:
`parse('prefix {"a": [1,2]} suffix')` returns the object
`{"a": [1, 2]}`; `parse('{"a": "text with } brace"}')` returns the object
with the brace kept inside the string (and the substring scanner itself
treats that brace as non-structural); and for input with an unmatched
bracket such as `'{"a": '`, parse returns the original string unchanged
without raising. -/
theorem claim7_parser_bracket_matching :
    parse_model_response (.pyStr "prefix \x7b\"a\": [1,2]\x7d suffix") =
        .pyDict [("a", Json.arr [Json.num 1, Json.num 2])] ∧
    parse_model_response (.pyStr "\x7b\"a\": \"text with \x7d brace\"\x7d") =
        .pyDict [("a", Json.str "text with \x7d brace")] ∧
    extract_json_substring "\x7b\"a\": \"text with \x7d brace\"\x7d" =
        some "\x7b\"a\": \"text with \x7d brace\"\x7d" ∧
    extract_json_substring "note \x7b\"b\": \"escaped \\\" quote and \x7d brace\"\x7d end" =
        some "\x7b\"b\": \"escaped \\\" quote and \x7d brace\"\x7d" ∧
    parse_model_response (.pyStr "\x7b\"a\": ") = .pyStr "\x7b\"a\": " :=
  ⟨rfl, rfl, rfl, rfl, rfl⟩

/-- Claim C8 counterexample: the parser is not idempotent.  For the input
string `'"{}"'` (a JSON string literal whose content is `{}`), the first
parse returns the string `{}` via `json.loads`, and parsing that again
returns the empty object, so `parse(parse(x)) ≠ parse(x)`. -/
theorem claim8_counterexample :
    parse_model_response (parse_model_response (Content.pyStr "\"\x7b\x7d\"")) ≠
      parse_model_response (Content.pyStr "\"\x7b\x7d\"") := by
  intro h
  have h2 : Content.pyDict [] = Content.pyStr "\x7b\x7d" := h
  exact Content.noConfusion h2

/-- Claim C8 (amended): the parser is idempotent on every input whose
parse is not a string decoded out of a JSON string literal — that is,
whenever `parse x` equals `x` itself (already-structured objects/arrays,
non-string scalars, and strings returned unchanged on parse failure) or
`parse x` is not a string at all, `parse (parse x) = parse x`. -/
theorem claim8_parser_idempotent_amended (c : Content)
    (h : parse_model_response c = c ∨ ∀ s, parse_model_response c ≠ Content.pyStr s) :
    parse_model_response (parse_model_response c) = parse_model_response c := by
  rcases h with h | h
  · rw [h]
    exact h
  · rcases hd : parse_model_response c with _ | b | n | r | s | xs | kvs
    · rfl
    · rfl
    · rfl
    · rfl
    · exact absurd hd (h s)
    · rfl
    · rfl

/-- Witness for claim C8 (amended) at the parse-failure fixed point
`"no json here"`. -/
theorem claim8_witness :
    parse_model_response (parse_model_response (Content.pyStr "no json here")) =
      parse_model_response (Content.pyStr "no json here") :=
  claim8_parser_idempotent_amended _ (Or.inl rfl)

/-! ## Helper lemmas about the rasterizer and the per-page loop -/

section ServiceLemmas

variable {Pdf Page Schema Answers Mapping : Type}

theorem selectSchema_pos (schemas : List Schema) (h0 : 0 < schemas.length) (k : Nat) :
    selectSchema schemas k = some (schemaAt schemas h0 k) := by
  simp only [selectSchema, schemaAt]
  by_cases h : k < schemas.length
  · rw [if_pos h, dif_pos h]
    simp [List.getElem?_eq_getElem h]
  · rw [if_neg h, dif_neg h]
    simp [List.getElem?_eq_getElem h0]

theorem encode_pages_ok (r : Page → Page) (e : Page → String) (ps : List Page) :
    encode_pages (fun p => Except.ok (r p)) (fun p => Except.ok (e p)) ps =
      Except.ok (ps.map fun p => e (r p)) := by
  induction ps with
  | nil => rfl
  | cons p rest ih => simp only [encode_pages, ih, List.map_cons]

theorem pdf_to_base64_images_ok (convert : Pdf → Except String (List Page))
    (r : Page → Page) (e : Page → String) (maxPages : Nat) (pdf : Pdf)
    (ps : List Page) (hconv : convert pdf = Except.ok ps) (hmp : ps.length ≤ maxPages) :
    pdf_to_base64_images convert (fun p => Except.ok (r p)) (fun p => Except.ok (e p))
        maxPages pdf = Except.ok (ps.map fun p => e (r p)) := by
  simp only [pdf_to_base64_images, pdf_to_images, hconv]
  rw [if_neg (by omega)]
  exact encode_pages_ok r e ps

theorem extract_pages_no_abort (f : String → Schema → Except String Answers)
    (schemas : List Schema) (h0 : 0 < schemas.length) (imgs : List String) :
    ∀ idx : Nat, (extract_pages f schemas imgs idx).2 = none := by
  induction imgs with
  | nil => intro idx; rfl
  | cons img rest ih =>
    intro idx
    simp only [extract_pages, selectSchema_pos schemas h0]
    exact ih (idx + 1)

theorem extract_pages_length (f : String → Schema → Except String Answers)
    (schemas : List Schema) (h0 : 0 < schemas.length) (imgs : List String) :
    ∀ idx : Nat, (extract_pages f schemas imgs idx).1.length = imgs.length := by
  induction imgs with
  | nil => intro idx; rfl
  | cons img rest ih =>
    intro idx
    simp only [extract_pages, selectSchema_pos schemas h0, List.length_cons]
    rw [ih (idx + 1)]

theorem extract_pages_get (f : String → Schema → Except String Answers)
    (schemas : List Schema) (h0 : 0 < schemas.length) (imgs : List String) :
    ∀ (idx i : Nat), (hi : i < imgs.length) →
      (extract_pages f schemas imgs idx).1[i]? =
        some (pageOf (idx + i) imgs[i] (f imgs[i] (schemaAt schemas h0 (idx + i)))) := by
  induction imgs with
  | nil => intro idx i hi; simp at hi
  | cons img rest ih =>
    intro idx i hi
    simp only [extract_pages, selectSchema_pos schemas h0]
    cases i with
    | zero => simp
    | succ j =>
      have hj : j < rest.length := by simpa using hi
      have harith : idx + 1 + j = idx + (j + 1) := by omega
      simp only [List.getElem?_cons_succ, List.getElem_cons_succ]
      rw [ih (idx + 1) j hj, harith]

/-- Characterization of `extract_from_pdf` on a file whose rasterization
fully succeeds and whose schema list is nonempty. -/
theorem extract_from_pdf_ok (convert : Pdf → Except String (List Page))
    (r : Page → Page) (e : Page → String)
    (f : String → Schema → Except String Answers) (maxPages : Nat) (pdf : Pdf)
    (schemas : List Schema) (filename : String) (ps : List Page)
    (hconv : convert pdf = Except.ok ps) (hmp : ps.length ≤ maxPages)
    (h0 : 0 < schemas.length) :
    extract_from_pdf convert (fun p => Except.ok (r p)) (fun p => Except.ok (e p)) f
        maxPages pdf schemas filename =
      ⟨filename, (extract_pages f schemas (ps.map fun p => e (r p)) 0).1,
        ps.map fun p => e (r p), Status.success, none⟩ := by
  simp only [extract_from_pdf,
    pdf_to_base64_images_ok convert r e maxPages pdf ps hconv hmp,
    extract_pages_no_abort f schemas h0]

end ServiceLemmas

/-! ## Claims about schema selection (C1, C2) -/

/-- Claim C1 counterexample: with two schemas and a three-page filled
document, the orchestrator extracts page 2 with `schemas[0]` (here the
extraction oracle echoes the schema it was given, so the answer reveals
the schema used: 10), while the claimed rule `schemas[min(page_index,
len(schemas)-1)]` selects `schemas[1]` = 20. -/
theorem claim1_counterexample :
    ((extract_from_pdf (fun _ : Nat => Except.ok [1, 2, 3])
        (fun p : Nat => Except.ok p) (fun p => Except.ok (toString p))
        (fun _ s => Except.ok s) 50 0 [10, 20] "f.pdf").pages.map
          PageResult.answers = [some 10, some 20, some 10]) ∧
    min 2 ([10, 20].length - 1) = 1 ∧ [10, 20][1]? = some 20 ∧
    (some 10 : Option Nat) ≠ some 20 :=
  ⟨rfl, rfl, rfl, by decide⟩

/-- Claim C1 (amended): for every filled-form page processed by the
orchestrator, the schema applied to page `page_index` is
`schemas[page_index]` when `page_index < len(schemas)` and `schemas[0]`
otherwise; in particular, when the filled document has more pages than
the template, a page at or beyond the schema count uses the *first*
schema — not `schemas[min(page_index, len(schemas)-1)]`. -/
theorem claim1_amended {Pdf Page Schema Answers : Type}
    (convert : Pdf → Except String (List Page)) (r : Page → Page) (e : Page → String)
    (extractAns : String → Schema → Except String Answers) (maxPages : Nat)
    (pdf : Pdf) (schemas : List Schema) (filename : String) (ps : List Page)
    (hconv : convert pdf = Except.ok ps) (hmp : ps.length ≤ maxPages)
    (h0 : 0 < schemas.length) (i : Nat) (hi : i < ps.length)
    (hbeyond : schemas.length ≤ i) :
    (extract_from_pdf convert (fun p => Except.ok (r p)) (fun p => Except.ok (e p))
        extractAns maxPages pdf schemas filename).pages[i]? =
      some (pageOf i (e (r ps[i]))
        (extractAns (e (r ps[i])) (schemas.get ⟨0, h0⟩))) := by
  rw [extract_from_pdf_ok convert r e extractAns maxPages pdf schemas filename ps
    hconv hmp h0]
  have hi2 : i < (ps.map fun p => e (r p)).length := by simpa using hi
  rw [extract_pages_get extractAns schemas h0 _ 0 i hi2]
  simp only [Nat.zero_add, List.getElem_map, schemaAt, dif_neg (by omega : ¬ i < schemas.length)]

/-- Witness for claim C1 (amended): two schemas, a three-page document;
page 2 is extracted with the first schema (the echoing extraction oracle
returns the schema it received: 10). -/
theorem claim1_witness :
    0 < [10, 20].length ∧ 2 < [1, 2, 3].length ∧ [10, 20].length ≤ 2 ∧
    (extract_from_pdf (fun _ : Nat => Except.ok [1, 2, 3]) (fun p : Nat => Except.ok p)
        (fun p => Except.ok (toString p)) (fun _ s => Except.ok s) 50 0 [10, 20]
        "g.pdf").pages[2]? = some (pageOf 2 "3" (Except.ok 10)) :=
  ⟨by decide, by decide, by decide,
    (claim1_amended (fun _ : Nat => Except.ok [1, 2, 3]) (fun q => q)
      (fun p => toString p) (fun _ s => Except.ok s) 50 0 [10, 20] "g.pdf" [1, 2, 3]
      rfl (by decide) (by decide) 2 (by decide) (by decide)).trans (by decide)⟩

/-- Claim C2: for every filled document, every page whose `page_index` is
at or beyond the number of template schemas is extracted using
`schemas[0]`, while every page with `page_index` below the schema count
uses `schemas[page_index]`; the file is processed to success with one
page result per rasterized page. -/
theorem claim2_schema_fallback {Pdf Page Schema Answers : Type}
    (convert : Pdf → Except String (List Page)) (r : Page → Page) (e : Page → String)
    (extractAns : String → Schema → Except String Answers) (maxPages : Nat)
    (pdf : Pdf) (schemas : List Schema) (filename : String) (ps : List Page)
    (hconv : convert pdf = Except.ok ps) (hmp : ps.length ≤ maxPages)
    (h0 : 0 < schemas.length) (i : Nat) (hi : i < ps.length) :
    (extract_from_pdf convert (fun p => Except.ok (r p)) (fun p => Except.ok (e p))
        extractAns maxPages pdf schemas filename).status = Status.success ∧
    (extract_from_pdf convert (fun p => Except.ok (r p)) (fun p => Except.ok (e p))
        extractAns maxPages pdf schemas filename).pages.length = ps.length ∧
    (∀ h : i < schemas.length,
      (extract_from_pdf convert (fun p => Except.ok (r p)) (fun p => Except.ok (e p))
          extractAns maxPages pdf schemas filename).pages[i]? =
        some (pageOf i (e (r ps[i]))
          (extractAns (e (r ps[i])) (schemas.get ⟨i, h⟩)))) ∧
    (schemas.length ≤ i →
      (extract_from_pdf convert (fun p => Except.ok (r p)) (fun p => Except.ok (e p))
          extractAns maxPages pdf schemas filename).pages[i]? =
        some (pageOf i (e (r ps[i]))
          (extractAns (e (r ps[i])) (schemas.get ⟨0, h0⟩)))) := by
  rw [extract_from_pdf_ok convert r e extractAns maxPages pdf schemas filename ps
    hconv hmp h0]
  have hi2 : i < (ps.map fun p => e (r p)).length := by simpa using hi
  refine ⟨rfl, ?_, ?_, ?_⟩
  · rw [extract_pages_length extractAns schemas h0 _ 0]
    simp
  · intro h
    rw [extract_pages_get extractAns schemas h0 _ 0 i hi2]
    simp only [Nat.zero_add, List.getElem_map, schemaAt, dif_pos h]
  · intro h
    rw [extract_pages_get extractAns schemas h0 _ 0 i hi2]
    simp only [Nat.zero_add, List.getElem_map, schemaAt,
      dif_neg (by omega : ¬ i < schemas.length)]

/-- Witness for claim C2: two schemas, three pages; page 1 uses
`schemas[1]` = 20 and page 2 falls back to `schemas[0]` = 10. -/
theorem claim2_witness :
    0 < [10, 20].length ∧ 1 < [1, 2, 3].length ∧ 2 < [1, 2, 3].length ∧
    (extract_from_pdf (fun _ : Nat => Except.ok [1, 2, 3]) (fun p : Nat => Except.ok p)
        (fun p => Except.ok (toString p)) (fun _ s => Except.ok s) 50 0 [10, 20]
        "h.pdf").pages[1]? = some (pageOf 1 "2" (Except.ok 20)) ∧
    (extract_from_pdf (fun _ : Nat => Except.ok [1, 2, 3]) (fun p : Nat => Except.ok p)
        (fun p => Except.ok (toString p)) (fun _ s => Except.ok s) 50 0 [10, 20]
        "h.pdf").status = Status.success :=
  ⟨by decide, by decide, by decide,
    ((claim2_schema_fallback (fun _ : Nat => Except.ok [1, 2, 3]) (fun q => q)
      (fun p => toString p) (fun _ s => Except.ok s) 50 0 [10, 20] "h.pdf" [1, 2, 3]
      rfl (by decide) (by decide) 1 (by decide)).2.2.1 (by decide)).trans (by decide),
    (claim2_schema_fallback (fun _ : Nat => Except.ok [1, 2, 3]) (fun q => q)
      (fun p => toString p) (fun _ s => Except.ok s) 50 0 [10, 20] "h.pdf" [1, 2, 3]
      rfl (by decide) (by decide) 2 (by decide)).1⟩

/-! ## Claim about the rasterizer page count (C9) -/

/-- Claim C9: for every decodable PDF with `N` pages, if `N ≤ max_pages`
the rasterizer output has exactly `N` entries, entry `i` coming from page
`i` in page order; if `N > max_pages` it has exactly `max_pages` entries
(the first `max_pages` pages) and still succeeds (truncation does not
fail). -/
theorem claim9_rasterizer_page_count {Pdf Page : Type}
    (convert : Pdf → Except String (List Page)) (r : Page → Page) (e : Page → String)
    (maxPages : Nat) (pdf : Pdf) (ps : List Page)
    (hconv : convert pdf = Except.ok ps) :
    (ps.length ≤ maxPages →
      pdf_to_images convert maxPages pdf = Except.ok ps ∧
      pdf_to_base64_images convert (fun p => Except.ok (r p)) (fun p => Except.ok (e p))
          maxPages pdf = Except.ok (ps.map fun p => e (r p)) ∧
      (ps.map fun p => e (r p)).length = ps.length) ∧
    (maxPages < ps.length →
      pdf_to_images convert maxPages pdf = Except.ok (ps.take maxPages) ∧
      (ps.take maxPages).length = maxPages ∧
      pdf_to_base64_images convert (fun p => Except.ok (r p)) (fun p => Except.ok (e p))
          maxPages pdf = Except.ok ((ps.take maxPages).map fun p => e (r p))) := by
  constructor
  · intro hle
    refine ⟨?_, pdf_to_base64_images_ok convert r e maxPages pdf ps hconv hle, by simp⟩
    simp only [pdf_to_images, hconv]
    rw [if_neg (by omega)]
  · intro hgt
    have htake : pdf_to_images convert maxPages pdf = Except.ok (ps.take maxPages) := by
      simp only [pdf_to_images, hconv]
      rw [if_pos (by omega)]
    refine ⟨htake, by simp [List.length_take]; omega, ?_⟩
    simp only [pdf_to_base64_images, htake]
    exact encode_pages_ok r e (ps.take maxPages)

/-- Witness for claim C9: a three-page document under a cap of 5 keeps
all three pages; under a cap of 2 it is truncated to the first two,
still succeeding. -/
theorem claim9_witness :
    ([1, 2, 3] : List Nat).length ≤ 5 ∧
    pdf_to_base64_images (fun _ : Nat => Except.ok [1, 2, 3]) (fun p : Nat => Except.ok p)
      (fun p => Except.ok (toString p)) 5 0 = Except.ok ["1", "2", "3"] ∧
    2 < ([1, 2, 3] : List Nat).length ∧
    pdf_to_base64_images (fun _ : Nat => Except.ok [1, 2, 3]) (fun p : Nat => Except.ok p)
      (fun p => Except.ok (toString p)) 2 0 = Except.ok ["1", "2"] :=
  ⟨by decide,
    ((claim9_rasterizer_page_count (fun _ : Nat => Except.ok [1, 2, 3]) (fun q => q)
      (fun p => toString p) 5 0 [1, 2, 3] rfl).1 (by decide)).2.1,
    by decide,
    ((claim9_rasterizer_page_count (fun _ : Nat => Except.ok [1, 2, 3]) (fun q => q)
      (fun p => toString p) 2 0 [1, 2, 3] rfl).2 (by decide)).2.2⟩

/-! ## Batch-level claims (C4, C5, C6) -/

section BatchLemmas

variable {Pdf Page Schema Answers Mapping : Type}

/-- A successful schema-generation run implies the underlying template
rasterization succeeded. -/
theorem raster_ok_of_generate_ok (convert : Pdf → Except String (List Page))
    (resizeOp : Page → Except String Page) (encodeOp : Page → Except String String)
    (genSchema : String → Except String Schema) (maxPages : Nat) (template : Pdf)
    (schemas : List Schema)
    (hT : generate_schemas_from_template convert resizeOp encodeOp genSchema maxPages
      template = Except.ok schemas) :
    ∃ timgs, pdf_to_base64_images convert resizeOp encodeOp maxPages template =
      Except.ok timgs := by
  unfold generate_schemas_from_template at hT
  cases h : pdf_to_base64_images convert resizeOp encodeOp maxPages template with
  | ok imgs => exact ⟨imgs, rfl⟩
  | error e =>
    rw [h] at hT
    cases e <;> simp at hT

end BatchLemmas

/-- Claim C5: if template rasterization fails or schema generation fails
for any single template page, `extract_batch` returns an error result
whose schemas list and results list are both empty, with no per-file
extraction and no qualtrics call performed (the outcome is one fixed
error dictionary for *every* choice of extraction, fetch and mapping
oracle). -/
theorem claim5_template_failure_all_or_nothing {Pdf Page Schema Answers Mapping : Type}
    (convert : Pdf → Except String (List Page)) (resizeOp : Page → Except String Page)
    (encodeOp : Page → Except String String) (genSchema : String → Except String Schema)
    (maxPages : Nat) (template : Pdf) :
    (∀ m : String,
      generate_schemas_from_template convert resizeOp encodeOp genSchema maxPages template =
        Except.error (OcrError.schemaGenerationError m) →
      ∀ (extractAns : String → Schema → Except String Answers)
        (httpGet : String → Except String String)
        (vlmMap : String → List Schema → Option Mapping)
        (pdf_files : List (String × Pdf)) (qualtricsUrl : Option String),
        extract_batch convert resizeOp encodeOp genSchema extractAns httpGet vlmMap
            maxPages template pdf_files qualtricsUrl =
          Except.ok ⟨Status.error, some m, [], [], [], none, none⟩) ∧
    (∀ ce : String, convert template = Except.error ce →
      generate_schemas_from_template convert resizeOp encodeOp genSchema maxPages template =
        Except.error (OcrError.schemaGenerationError
          ("Failed to process template PDF: " ++ ("PDF conversion failed: " ++ ce)))) ∧
    (∀ (imgs : List String) (ge : String),
      pdf_to_base64_images convert resizeOp encodeOp maxPages template = Except.ok imgs →
      generate_schema_pages genSchema imgs = Except.error ge →
      generate_schemas_from_template convert resizeOp encodeOp genSchema maxPages template =
        Except.error (OcrError.schemaGenerationError ("Schema generation failed: " ++ ge))) := by
  refine ⟨?_, ?_, ?_⟩
  · intro m hm extractAns httpGet vlmMap pdf_files qualtricsUrl
    simp only [extract_batch, hm]
  · intro ce hce
    simp only [generate_schemas_from_template, pdf_to_base64_images, pdf_to_images, hce]
  · intro imgs ge h1 h2
    simp only [generate_schemas_from_template, h1, h2]

/-- Witness for claim C5: a template whose bytes do not decode yields the
fixed error batch with empty schemas and results, for a concrete oracle
instantiation. -/
theorem claim5_witness :
    generate_schemas_from_template (fun _ : Nat => (Except.error "bad pdf" : Except String (List Nat)))
        (fun p : Nat => Except.ok p) (fun p => Except.ok (toString p))
        (fun _ => Except.ok (1 : Nat)) 50 0 =
      Except.error (OcrError.schemaGenerationError
        "Failed to process template PDF: PDF conversion failed: bad pdf") ∧
    extract_batch (fun _ : Nat => (Except.error "bad pdf" : Except String (List Nat)))
        (fun p : Nat => Except.ok p) (fun p => Except.ok (toString p))
        (fun _ => Except.ok (1 : Nat)) (fun _ _ => Except.ok (2 : Nat))
        (fun _ => Except.ok "html") (fun _ _ => some (3 : Nat)) 50 0
        [("a.pdf", 1), ("b.pdf", 2)] (some "http://q") =
      Except.ok ⟨Status.error,
        some "Failed to process template PDF: PDF conversion failed: bad pdf",
        [], [], [], none, none⟩ :=
  ⟨((@claim5_template_failure_all_or_nothing Nat Nat Nat Nat Nat
      (fun _ => Except.error "bad pdf")
      (fun p => Except.ok p) (fun p => Except.ok (toString p))
      (fun _ => Except.ok 1) 50 0).2.1 "bad pdf" rfl).trans rfl,
    (@claim5_template_failure_all_or_nothing Nat Nat Nat Nat Nat
      (fun _ => Except.error "bad pdf")
      (fun p => Except.ok p) (fun p => Except.ok (toString p))
      (fun _ => Except.ok 1) 50 0).1
      "Failed to process template PDF: PDF conversion failed: bad pdf"
      rfl (fun _ _ => Except.ok (2 : Nat)) (fun _ => Except.ok "html")
      (fun _ _ => some (3 : Nat)) [("a.pdf", 1), ("b.pdf", 2)] (some "http://q")⟩

/-- Claim C4: for every batch whose template stage succeeds, the batch
result contains exactly one file entry per input file in input order
(entry `i` being `extract_from_pdf` of input file `i`); a file whose
bytes cannot be rasterized as a PDF gets `status=error` with a
descriptive message and an empty pages list, and a sibling file whose
rasterization succeeds is processed to `status=success` with one page
result per page — each entry depending only on that file's own
rasterization, so a failing file never affects its siblings. -/
theorem claim4_failure_isolation {Pdf Page Schema Answers Mapping : Type}
    (convert : Pdf → Except String (List Page)) (resizeOp : Page → Except String Page)
    (encodeOp : Page → Except String String) (genSchema : String → Except String Schema)
    (extractAns : String → Schema → Except String Answers)
    (httpGet : String → Except String String)
    (vlmMap : String → List Schema → Option Mapping) (maxPages : Nat)
    (template : Pdf) (pdf_files : List (String × Pdf)) (qualtricsUrl : Option String)
    (schemas : List Schema)
    (hT : generate_schemas_from_template convert resizeOp encodeOp genSchema maxPages
      template = Except.ok schemas)
    (h0 : 0 < schemas.length) (i : Nat) (hi : i < pdf_files.length) :
    batchStatus (extract_batch convert resizeOp encodeOp genSchema extractAns httpGet
        vlmMap maxPages template pdf_files qualtricsUrl) = some Status.success ∧
    batchResultsCount (extract_batch convert resizeOp encodeOp genSchema extractAns httpGet
        vlmMap maxPages template pdf_files qualtricsUrl) = some pdf_files.length ∧
    batchResultAt (extract_batch convert resizeOp encodeOp genSchema extractAns httpGet
        vlmMap maxPages template pdf_files qualtricsUrl) i =
      some (extract_from_pdf convert resizeOp encodeOp extractAns maxPages
        (pdf_files[i]).2 schemas (pdf_files[i]).1) ∧
    (∀ msg : String, convert (pdf_files[i]).2 = Except.error msg →
      batchResultAt (extract_batch convert resizeOp encodeOp genSchema extractAns httpGet
          vlmMap maxPages template pdf_files qualtricsUrl) i =
        some ⟨(pdf_files[i]).1, [], [], Status.error,
          some ("PDF processing failed: " ++ ("PDF conversion failed: " ++ msg))⟩) ∧
    (∀ imgs : List String,
      pdf_to_base64_images convert resizeOp encodeOp maxPages (pdf_files[i]).2 =
        Except.ok imgs →
      batchResultAt (extract_batch convert resizeOp encodeOp genSchema extractAns httpGet
          vlmMap maxPages template pdf_files qualtricsUrl) i =
        some ⟨(pdf_files[i]).1, (extract_pages extractAns schemas imgs 0).1, imgs,
          Status.success, none⟩ ∧
      (extract_pages extractAns schemas imgs 0).1.length = imgs.length) := by
  obtain ⟨timgs, htims⟩ := raster_ok_of_generate_ok convert resizeOp encodeOp genSchema
    maxPages template schemas hT
  have hbatch : extract_batch convert resizeOp encodeOp genSchema extractAns httpGet
      vlmMap maxPages template pdf_files qualtricsUrl =
    Except.ok ⟨Status.success, none, schemas,
      pdf_files.map (fun f => extract_from_pdf convert resizeOp encodeOp extractAns
        maxPages f.2 schemas f.1),
      timgs,
      (match qualtricsUrl with
       | none => none
       | some u => if u = "" then none else map_qualtrics_fields httpGet vlmMap u schemas),
      some (qualtricsUrl.getD "")⟩ := by
    simp only [extract_batch, hT, htims]
  have hat : batchResultAt (extract_batch convert resizeOp encodeOp genSchema extractAns
      httpGet vlmMap maxPages template pdf_files qualtricsUrl) i =
      some (extract_from_pdf convert resizeOp encodeOp extractAns maxPages
        (pdf_files[i]).2 schemas (pdf_files[i]).1) := by
    rw [hbatch]
    simp [batchResultAt, List.getElem?_map, List.getElem?_eq_getElem hi]
  refine ⟨by rw [hbatch]; rfl, by rw [hbatch]; simp [batchResultsCount], hat, ?_, ?_⟩
  · intro msg hmsg
    rw [hat]
    simp only [extract_from_pdf, pdf_to_base64_images, pdf_to_images, hmsg]
  · intro imgs himgs
    rw [hat]
    refine ⟨?_, extract_pages_length extractAns schemas h0 imgs 0⟩
    simp only [extract_from_pdf, himgs, extract_pages_no_abort extractAns schemas h0]

/-- Witness for claim C4, matching the spec's scenario: three files, the
second of which is not a valid PDF; the batch has three entries, entry 1
is an error with empty pages, entries 0 and 2 succeed with one page
each. -/
theorem claim4_witness :
    generate_schemas_from_template
        (fun n : Nat => if n = 2 then Except.error "not a PDF" else Except.ok [n])
        (fun p : Nat => Except.ok p) (fun p => Except.ok (toString p))
        (fun _ => Except.ok (7 : Nat)) 50 0 = Except.ok [7] ∧
    0 < [7].length ∧ 1 < [("a.pdf", 1), ("b.pdf", 2), ("c.pdf", 3)].length ∧
    batchResultsCount (extract_batch
        (fun n : Nat => if n = 2 then Except.error "not a PDF" else Except.ok [n])
        (fun p : Nat => Except.ok p) (fun p => Except.ok (toString p))
        (fun _ => Except.ok (7 : Nat)) (fun img s => Except.ok (img, s))
        (fun _ => Except.ok "html") (fun _ _ => some (3 : Nat)) 50 0
        [("a.pdf", 1), ("b.pdf", 2), ("c.pdf", 3)] none) = some 3 ∧
    batchResultAt (extract_batch
        (fun n : Nat => if n = 2 then Except.error "not a PDF" else Except.ok [n])
        (fun p : Nat => Except.ok p) (fun p => Except.ok (toString p))
        (fun _ => Except.ok (7 : Nat)) (fun img s => Except.ok (img, s))
        (fun _ => Except.ok "html") (fun _ _ => some (3 : Nat)) 50 0
        [("a.pdf", 1), ("b.pdf", 2), ("c.pdf", 3)] none) 1 =
      some ⟨"b.pdf", [], [], Status.error,
        some "PDF processing failed: PDF conversion failed: not a PDF"⟩ ∧
    batchResultAt (extract_batch
        (fun n : Nat => if n = 2 then Except.error "not a PDF" else Except.ok [n])
        (fun p : Nat => Except.ok p) (fun p => Except.ok (toString p))
        (fun _ => Except.ok (7 : Nat)) (fun img s => Except.ok (img, s))
        (fun _ => Except.ok "html") (fun _ _ => some (3 : Nat)) 50 0
        [("a.pdf", 1), ("b.pdf", 2), ("c.pdf", 3)] none) 2 =
      some ⟨"c.pdf", [pageOf 0 "3" (Except.ok ("3", 7))], ["3"], Status.success, none⟩ := by
  refine ⟨rfl, by decide, by decide, ?_, ?_, ?_⟩
  · exact (claim4_failure_isolation
      (fun n : Nat => if n = 2 then Except.error "not a PDF" else Except.ok [n])
      (fun p : Nat => Except.ok p) (fun p => Except.ok (toString p))
      (fun _ => Except.ok (7 : Nat)) (fun img s => Except.ok (img, s))
      (fun _ => Except.ok "html") (fun _ _ => some (3 : Nat)) 50 0
      [("a.pdf", 1), ("b.pdf", 2), ("c.pdf", 3)] none [7] rfl (by decide)
      0 (by decide)).2.1
  · exact ((claim4_failure_isolation
      (fun n : Nat => if n = 2 then Except.error "not a PDF" else Except.ok [n])
      (fun p : Nat => Except.ok p) (fun p => Except.ok (toString p))
      (fun _ => Except.ok (7 : Nat)) (fun img s => Except.ok (img, s))
      (fun _ => Except.ok "html") (fun _ _ => some (3 : Nat)) 50 0
      [("a.pdf", 1), ("b.pdf", 2), ("c.pdf", 3)] none [7] rfl (by decide)
      1 (by decide)).2.2.2.1 "not a PDF" rfl).trans (by decide)
  · exact (((claim4_failure_isolation
      (fun n : Nat => if n = 2 then Except.error "not a PDF" else Except.ok [n])
      (fun p : Nat => Except.ok p) (fun p => Except.ok (toString p))
      (fun _ => Except.ok (7 : Nat)) (fun img s => Except.ok (img, s))
      (fun _ => Except.ok "html") (fun _ _ => some (3 : Nat)) 50 0
      [("a.pdf", 1), ("b.pdf", 2), ("c.pdf", 3)] none [7] rfl (by decide)
      2 (by decide)).2.2.2.2 ["3"] (by rfl)).1).trans (by decide)

/-- A failing qualtrics fetch makes the service-level mapping absent. -/
theorem map_qualtrics_fields_fetch_error {Schema Mapping : Type}
    (httpGet : String → Except String String)
    (vlmMap : String → List Schema → Option Mapping) (u e : String)
    (schemas : List Schema) (hfetch : httpGet u = Except.error e) :
    map_qualtrics_fields httpGet vlmMap u schemas = (none : Option Mapping) := by
  simp only [map_qualtrics_fields, fetch_qualtrics_html, hfetch]
  by_cases ht : u.trim = ""
  · simp [ht]
  · simp [ht]

/-- Claim C6 counterexample: in the `/extract` endpoint of src/api.py,
with a valid template, a working schema call and an unreachable qualtrics
URL, the request is aborted with an HTTP 400 error response — it does not
complete with a success-shaped body. -/
theorem claim6_counterexample :
    Api.api_extract (fun _ : Nat => Except.ok ["t"]) (fun _ => Except.ok (1 : Nat))
        (fun _ => Except.error "unreachable") (fun _ _ => Except.ok (0 : Nat))
        (fun _ _ => Except.ok (0 : Nat)) 0 [("f.pdf", 0)] "http://q" =
      Api.ApiResponse.errorResponse 400 "Failed to fetch Qualtrics link: unreachable" ∧
    (Api.api_extract (fun _ : Nat => Except.ok ["t"]) (fun _ => Except.ok (1 : Nat))
        (fun _ => Except.error "unreachable") (fun _ _ => Except.ok (0 : Nat))
        (fun _ _ => Except.ok (0 : Nat)) 0 [("f.pdf", 0)]
        "http://q").isSuccessResponse = false :=
  ⟨rfl, rfl⟩

/-- Claim C6 (amended): in `ExtractionService.extract_batch`, a batch
whose template stage succeeds and whose qualtrics URL is unreachable
completes with `qualtrics_mapping` absent and top-level status
`success` — a qualtrics failure never becomes a batch-level error there.
In the legacy src/api.py endpoint, however, a failing qualtrics *fetch*
aborts the request with an HTTP 400 error response; only a failure of
the qualtrics *mapping* call is non-fatal there. -/
theorem claim6_amended :
    (∀ (Pdf Page Schema Answers Mapping : Type)
      (convert : Pdf → Except String (List Page)) (resizeOp : Page → Except String Page)
      (encodeOp : Page → Except String String) (genSchema : String → Except String Schema)
      (extractAns : String → Schema → Except String Answers)
      (httpGet : String → Except String String)
      (vlmMap : String → List Schema → Option Mapping) (maxPages : Nat)
      (template : Pdf) (pdf_files : List (String × Pdf)) (u e : String)
      (schemas : List Schema),
      generate_schemas_from_template convert resizeOp encodeOp genSchema maxPages
        template = Except.ok schemas →
      httpGet u = Except.error e →
      batchStatus (extract_batch convert resizeOp encodeOp genSchema extractAns httpGet
          vlmMap maxPages template pdf_files (some u)) = some Status.success ∧
      batchMapping (extract_batch convert resizeOp encodeOp genSchema extractAns httpGet
          vlmMap maxPages template pdf_files (some u)) = some none ∧
      batchErrorMsg (extract_batch convert resizeOp encodeOp genSchema extractAns httpGet
          vlmMap maxPages template pdf_files (some u)) = some none) ∧
    (∀ (Pdf Schema Answers Mapping : Type)
      (raster : Pdf → Except String (List String))
      (schemaCall : String → Except String Schema)
      (httpGet : String → Except String String)
      (mapCall : String → List Schema → Except String Mapping)
      (extractCall : String → Schema → Except String Answers)
      (template : Pdf) (files : List (String × Pdf)) (link e : String)
      (timgs : List String) (ss : List Schema),
      raster template = Except.ok timgs →
      Api.apiSchemaLoop schemaCall timgs = Except.ok ss →
      link ≠ "" →
      httpGet link = Except.error e →
      Api.api_extract raster schemaCall httpGet mapCall extractCall template files link =
        Api.ApiResponse.errorResponse 400 ("Failed to fetch Qualtrics link: " ++ e)) ∧
    (∀ (Pdf Schema Answers Mapping : Type)
      (raster : Pdf → Except String (List String))
      (schemaCall : String → Except String Schema)
      (httpGet : String → Except String String)
      (mapCall : String → List Schema → Except String Mapping)
      (extractCall : String → Schema → Except String Answers)
      (template : Pdf) (files : List (String × Pdf)) (link pageText me : String)
      (timgs : List String) (ss : List Schema),
      raster template = Except.ok timgs →
      Api.apiSchemaLoop schemaCall timgs = Except.ok ss →
      (if link = "" then Except.ok "" else httpGet link) = Except.ok pageText →
      mapCall pageText ss = Except.error me →
      Api.api_extract raster schemaCall httpGet mapCall extractCall template files link =
        Api.ApiResponse.success ss
          (files.map (fun f => Api.apiProcessFile raster extractCall ss f.1 f.2))
          timgs link) := by
  refine ⟨?_, ?_, ?_⟩
  · intro Pdf Page Schema Answers Mapping convert resizeOp encodeOp genSchema extractAns
      httpGet vlmMap maxPages template pdf_files u e schemas hT hfetch
    obtain ⟨timgs, htims⟩ := raster_ok_of_generate_ok convert resizeOp encodeOp genSchema
      maxPages template schemas hT
    have hmap : (if u = "" then none
        else map_qualtrics_fields httpGet vlmMap u schemas) = (none : Option Mapping) := by
      by_cases hu : u = ""
      · rw [if_pos hu]
      · rw [if_neg hu,
          map_qualtrics_fields_fetch_error httpGet vlmMap u e schemas hfetch]
    simp only [extract_batch, hT, htims, hmap]
    exact ⟨rfl, rfl, rfl⟩
  · intro Pdf Schema Answers Mapping raster schemaCall httpGet mapCall extractCall
      template files link e timgs ss hras hloop hlink hfetch
    simp only [Api.api_extract, hras, hloop, if_neg hlink, hfetch]
  · intro Pdf Schema Answers Mapping raster schemaCall httpGet mapCall extractCall
      template files link pageText me timgs ss hras hloop hget hmap
    simp only [Api.api_extract, hras, hloop, hget, hmap]

/-- Witness for claim C6 (amended): concrete instantiations of all three
parts — an unreachable qualtrics URL leaves the service batch successful
with no mapping, makes the legacy endpoint answer 400, and a failing
mapping call leaves the legacy endpoint successful. -/
theorem claim6_witness :
    batchStatus (extract_batch (fun _ : Nat => Except.ok [4]) (fun p : Nat => Except.ok p)
        (fun p => Except.ok (toString p)) (fun _ => Except.ok (7 : Nat))
        (fun img s => Except.ok (img, s)) (fun _ => Except.error "unreachable")
        (fun _ _ => some (3 : Nat)) 50 0 [("a.pdf", 1)] (some "http://q")) =
      some Status.success ∧
    batchMapping (extract_batch (fun _ : Nat => Except.ok [4]) (fun p : Nat => Except.ok p)
        (fun p => Except.ok (toString p)) (fun _ => Except.ok (7 : Nat))
        (fun img s => Except.ok (img, s)) (fun _ => Except.error "unreachable")
        (fun _ _ => some (3 : Nat)) 50 0 [("a.pdf", 1)] (some "http://q")) = some none ∧
    Api.api_extract (fun _ : Nat => Except.ok ["t"]) (fun _ => Except.ok (1 : Nat))
        (fun _ => Except.error "down") (fun _ _ => Except.ok (0 : Nat))
        (fun _ _ => Except.ok (0 : Nat)) 0 [("f.pdf", 0)] "http://q" =
      Api.ApiResponse.errorResponse 400 "Failed to fetch Qualtrics link: down" ∧
    Api.api_extract (fun _ : Nat => Except.ok ["t"]) (fun _ => Except.ok (1 : Nat))
        (fun _ => Except.ok "html") (fun _ _ => (Except.error "map fail" : Except String Nat))
        (fun _ _ => Except.ok (0 : Nat)) 0 [("f.pdf", 0)] "http://q" =
      Api.ApiResponse.success [1]
        [⟨"f.pdf", [Api.ApiPageEntry.page 0 0 "t"], ["t"]⟩] ["t"] "http://q" := by
  have h1 := (claim6_amended.1 Nat Nat Nat (String × Nat) Nat (fun _ => Except.ok [4])
    (fun p => Except.ok p) (fun p => Except.ok (toString p)) (fun _ => Except.ok 7)
    (fun img s => Except.ok (img, s)) (fun _ => Except.error "unreachable")
    (fun _ _ => some 3) 50 0 [("a.pdf", 1)] "http://q" "unreachable" [7] rfl rfl)
  refine ⟨h1.1, h1.2.1, ?_, ?_⟩
  · exact claim6_amended.2.1 Nat Nat Nat Nat (fun _ => Except.ok ["t"])
      (fun _ => Except.ok 1) (fun _ => Except.error "down") (fun _ _ => Except.ok 0)
      (fun _ _ => Except.ok 0) 0 [("f.pdf", 0)] "http://q" "down" ["t"] [1]
      rfl rfl (by decide) rfl
  · exact (claim6_amended.2.2 Nat Nat Nat Nat (fun _ => Except.ok ["t"])
      (fun _ => Except.ok 1) (fun _ => Except.ok "html") (fun _ _ => Except.error "map fail")
      (fun _ _ => Except.ok 0) 0 [("f.pdf", 0)] "http://q" "html" "map fail" ["t"] [1]
      rfl rfl (by rfl) rfl).trans (by decide)

/-! ## Retry claims (C3, C10) -/

/-- Trace of `_make_request` when every attempt times out: one attempt
per admissible `retry_count` value, linearly growing sleeps, and the
timeout-exhaustion `VLMAPIError`. -/
theorem make_request_timeout_all {ρ : Type} (net : Nat → ReqOutcome ρ) (mr : Nat) (rd : ℚ)
    (h : ∀ k, ∃ m, net k = ReqOutcome.timeout m) :
    ∀ (gas rc : Nat), mr - rc = gas →
      make_request net mr rd rc =
        ⟨Except.error ("Request timeout after " ++ toString (mr + 1) ++ " attempts"),
          gas + 1, (List.range' (rc + 1) gas).map (fun j => rd * (j : ℚ))⟩ := by
  intro gas
  induction gas with
  | zero =>
    intro rc hrc
    obtain ⟨m, hm⟩ := h rc
    rw [make_request]
    simp only [hm]
    rw [dif_neg (by omega : ¬ rc < mr)]
    simp
  | succ g ih =>
    intro rc hrc
    obtain ⟨m, hm⟩ := h rc
    rw [make_request]
    simp only [hm]
    rw [dif_pos (by omega : rc < mr)]
    simp only [ih (rc + 1) (by omega)]
    simp [List.range'_succ]

/-- Trace of `_make_request` when every attempt fails with a retryable
error (HTTP 5xx or a transport-level `RequestException`): one attempt per
admissible `retry_count` value, then a `VLMAPIError`. -/
theorem make_request_retryable_all {ρ : Type} (net : Nat → ReqOutcome ρ) (mr : Nat) (rd : ℚ)
    (h : ∀ k, (∃ s b, 500 ≤ s ∧ net k = ReqOutcome.httpError s b) ∨
      (∃ m, net k = ReqOutcome.requestError m)) :
    ∀ (gas rc : Nat), mr - rc = gas →
      (make_request net mr rd rc).attempts = gas + 1 ∧
      ∃ e, (make_request net mr rd rc).result = Except.error e := by
  intro gas
  induction gas with
  | zero =>
    intro rc hrc
    rcases h rc with ⟨s, b, hs, hm⟩ | ⟨m, hm⟩
    · rw [make_request]
      simp only [hm]
      rw [dif_neg (by omega : ¬ (rc < mr ∧ 500 ≤ s))]
      exact ⟨rfl, _, rfl⟩
    · rw [make_request]
      simp only [hm]
      rw [dif_neg (by omega : ¬ rc < mr)]
      exact ⟨rfl, _, rfl⟩
  | succ g ih =>
    intro rc hrc
    have ihn := ih (rc + 1) (by omega)
    rcases h rc with ⟨s, b, hs, hm⟩ | ⟨m, hm⟩
    · rw [make_request]
      simp only [hm]
      rw [dif_pos ⟨(by omega : rc < mr), hs⟩]
      exact ⟨by simp [ihn.1], ihn.2⟩
    · rw [make_request]
      simp only [hm]
      rw [dif_pos (by omega : rc < mr)]
      exact ⟨by simp [ihn.1], ihn.2⟩

/-- Attempt-count bound for `_make_request`: at most `max_retries -
retry_count + 1` network attempts are made, whatever the outcomes. -/
theorem make_request_attempts_le {ρ : Type} (net : Nat → ReqOutcome ρ) (mr : Nat) (rd : ℚ) :
    ∀ (gas rc : Nat), mr - rc ≤ gas → (make_request net mr rd rc).attempts ≤ gas + 1 := by
  intro gas
  induction gas with
  | zero =>
    intro rc hrc
    cases hm : net rc with
    | success r =>
      rw [make_request]
      simp [hm]
    | timeout m =>
      rw [make_request]
      simp only [hm]
      rw [dif_neg (by omega : ¬ rc < mr)]
    | httpError s b =>
      rw [make_request]
      simp only [hm]
      rw [dif_neg (by omega : ¬ (rc < mr ∧ 500 ≤ s))]
    | requestError m =>
      rw [make_request]
      simp only [hm]
      rw [dif_neg (by omega : ¬ rc < mr)]
  | succ g ih =>
    intro rc hrc
    have hin := ih (rc + 1) (by omega)
    cases hm : net rc with
    | success r =>
      rw [make_request]
      simp [hm]
    | timeout m =>
      rw [make_request]
      simp only [hm]
      by_cases hc : rc < mr
      · rw [dif_pos hc]
        show (make_request net mr rd (rc + 1)).attempts + 1 ≤ g + 1 + 1
        omega
      · rw [dif_neg hc]
        show 1 ≤ g + 1 + 1
        omega
    | httpError s b =>
      rw [make_request]
      simp only [hm]
      by_cases hc : rc < mr ∧ 500 ≤ s
      · rw [dif_pos hc]
        show (make_request net mr rd (rc + 1)).attempts + 1 ≤ g + 1 + 1
        omega
      · rw [dif_neg hc]
        show 1 ≤ g + 1 + 1
        omega
    | requestError m =>
      rw [make_request]
      simp only [hm]
      by_cases hc : rc < mr
      · rw [dif_pos hc]
        show (make_request net mr rd (rc + 1)).attempts + 1 ≤ g + 1 + 1
        omega
      · rw [dif_neg hc]
        show 1 ≤ g + 1 + 1
        omega

/-- A call of `_make_request` whose own attempt fails retryably while
`retry_count < max_retries` sleeps once and hands over to the call at
`retry_count + 1`. -/
theorem make_request_step_retryable {ρ : Type} (net : Nat → ReqOutcome ρ)
    (mr : Nat) (rd : ℚ) (rc : Nat) (hlt : rc < mr) (hre : retryableOutcome (net rc)) :
    make_request net mr rd rc =
      ⟨(make_request net mr rd (rc + 1)).result,
        (make_request net mr rd (rc + 1)).attempts + 1,
        rd * ((rc + 1 : Nat) : ℚ) :: (make_request net mr rd (rc + 1)).sleeps⟩ := by
  cases hm : net rc with
  | success r =>
    rw [hm] at hre
    exact hre.elim
  | timeout m =>
    rw [make_request]
    simp only [hm]
    rw [dif_pos hlt]
  | httpError s b =>
    rw [hm] at hre
    rw [make_request]
    simp only [hm]
    rw [dif_pos ⟨hlt, hre⟩]
  | requestError m =>
    rw [make_request]
    simp only [hm]
    rw [dif_pos hlt]

/-- If the `d` attempts starting at `retry_count = rc` all fail
retryably (staying within the retry budget), the trace from `rc` is the
trace from `rc + d` plus those `d` attempts. -/
theorem make_request_skip {ρ : Type} (net : Nat → ReqOutcome ρ) (mr : Nat) (rd : ℚ) :
    ∀ (d rc : Nat), rc + d ≤ mr →
      (∀ k, rc ≤ k → k < rc + d → retryableOutcome (net k)) →
      (make_request net mr rd rc).result = (make_request net mr rd (rc + d)).result ∧
      (make_request net mr rd rc).attempts =
        (make_request net mr rd (rc + d)).attempts + d := by
  intro d
  induction d with
  | zero => intro rc h1 h2; exact ⟨rfl, rfl⟩
  | succ e ih =>
    intro rc h1 h2
    have hstep := make_request_step_retryable net mr rd rc (by omega)
      (h2 rc (le_refl rc) (by omega))
    have hih := ih (rc + 1) (by omega) (fun k hk1 hk2 => h2 k (by omega) (by omega))
    have harith : rc + 1 + e = rc + (e + 1) := by omega
    rw [harith] at hih
    rw [hstep]
    refine ⟨hih.1, ?_⟩
    show (make_request net mr rd (rc + 1)).attempts + 1 = _ + (e + 1)
    have ha := hih.2
    omega

/-- An attempt answered with an HTTP status below 500 (in particular any
4xx) is never retried, at any `retry_count`: the call raises the
`VLMAPIError` at once, with exactly that one attempt and no sleep. -/
theorem make_request_4xx_immediate {ρ : Type} (net : Nat → ReqOutcome ρ)
    (mr : Nat) (rd : ℚ) (rc s : Nat) (b : String)
    (hm : net rc = ReqOutcome.httpError s b) (hs : s < 500) :
    make_request net mr rd rc =
      ⟨Except.error ("HTTP error: " ++ toString s ++ " - " ++ b), 1, []⟩ := by
  rw [make_request]
  simp only [hm]
  rw [dif_neg (by omega : ¬ (rc < mr ∧ 500 ≤ s))]

/-- Claim C3: if every attempt times out, the client makes exactly
`max_retries + 1` attempts, sleeping `retry_delay * attempt_number`
before each retry (so the sleep sequence is `retry_delay * 1, ...,
retry_delay * max_retries`), and raises the timeout `VLMAPIError`; if
*any* attempt returns an HTTP 4xx status (after any run of retryable
failures reaching it), the client makes no further attempts and raises
`VLMAPIError` immediately — the run that meets a 4xx at `retry_count =
rc` totals exactly `rc + 1` attempts, hence exactly 1 attempt when the
first response is 4xx; if every attempt fails with HTTP 5xx or a
transport error, the client again makes exactly `max_retries + 1`
attempts and then raises `VLMAPIError`. -/
theorem claim3_retry_policy {ρ : Type} (net : Nat → ReqOutcome ρ) (mr : Nat) (rd : ℚ) :
    ((∀ k, ∃ m, net k = ReqOutcome.timeout m) →
      (make_request net mr rd 0).attempts = mr + 1 ∧
      (make_request net mr rd 0).result =
        Except.error ("Request timeout after " ++ toString (mr + 1) ++ " attempts") ∧
      (make_request net mr rd 0).sleeps =
        (List.range' 1 mr).map (fun j => rd * (j : ℚ))) ∧
    (∀ (rc s : Nat) (b : String), rc ≤ mr →
      (∀ k, k < rc → retryableOutcome (net k)) →
      net rc = ReqOutcome.httpError s b → 400 ≤ s → s < 500 →
      make_request net mr rd rc =
        ⟨Except.error ("HTTP error: " ++ toString s ++ " - " ++ b), 1, []⟩ ∧
      (make_request net mr rd 0).attempts = rc + 1 ∧
      (make_request net mr rd 0).result =
        Except.error ("HTTP error: " ++ toString s ++ " - " ++ b)) ∧
    ((∀ k, (∃ s b, 500 ≤ s ∧ net k = ReqOutcome.httpError s b) ∨
        (∃ m, net k = ReqOutcome.requestError m)) →
      (make_request net mr rd 0).attempts = mr + 1 ∧
      ∃ e, (make_request net mr rd 0).result = Except.error e) := by
  refine ⟨?_, ?_, ?_⟩
  · intro h
    rw [make_request_timeout_all net mr rd h mr 0 (by omega)]
    exact ⟨rfl, rfl, rfl⟩
  · intro rc s b hrc hpre hm h400 h500
    have himm := make_request_4xx_immediate net mr rd rc s b hm h500
    obtain ⟨hres, hatt⟩ := make_request_skip net mr rd rc 0 (by omega)
      (fun k hk1 hk2 => hpre k (by omega))
    rw [Nat.zero_add] at hres hatt
    refine ⟨himm, ?_, ?_⟩
    · have hatt2 : (make_request net mr rd 0).attempts = 1 + rc := by
        rw [hatt, himm]
      omega
    · rw [hres, himm]
  · intro h
    simpa using make_request_retryable_all net mr rd h mr 0 (by omega)

/-- Witness for claim C3: with `max_retries = 2` and `retry_delay = 1`,
an always-timing-out endpoint gets exactly 3 attempts, sleeps `[1, 2]`
and raises the exhaustion error; an endpoint answering HTTP 400 on the
first attempt gets exactly 1 attempt; and an endpoint that times out
once and then answers HTTP 404 gets exactly 2 attempts in total, the
4xx stopping the retries at once. -/
theorem claim3_witness :
    (make_request (fun _ => (ReqOutcome.timeout "t" : ReqOutcome Unit)) 2 1 0).attempts = 3 ∧
    (make_request (fun _ => (ReqOutcome.timeout "t" : ReqOutcome Unit)) 2 1 0).result =
      Except.error "Request timeout after 3 attempts" ∧
    (make_request (fun _ => (ReqOutcome.timeout "t" : ReqOutcome Unit)) 2 1 0).sleeps =
      [1, 2] ∧
    (make_request (fun _ => (ReqOutcome.httpError 400 "bad" : ReqOutcome Unit)) 2 1
      0).attempts = 1 ∧
    (make_request (fun k => if k = 0 then (ReqOutcome.timeout "t" : ReqOutcome Unit)
      else ReqOutcome.httpError 404 "nf") 2 1 0).attempts = 2 ∧
    (make_request (fun k => if k = 0 then (ReqOutcome.timeout "t" : ReqOutcome Unit)
      else ReqOutcome.httpError 404 "nf") 2 1 0).result =
      Except.error "HTTP error: 404 - nf" ∧
    make_request (fun k => if k = 0 then (ReqOutcome.timeout "t" : ReqOutcome Unit)
      else ReqOutcome.httpError 404 "nf") 2 1 1 =
      ⟨Except.error "HTTP error: 404 - nf", 1, []⟩ := by
  have h1 := (claim3_retry_policy (fun _ => (ReqOutcome.timeout "t" : ReqOutcome Unit))
    2 1).1 (fun _ => ⟨"t", rfl⟩)
  have h2 := (claim3_retry_policy (fun _ => (ReqOutcome.httpError 400 "bad" :
    ReqOutcome Unit)) 2 1).2.1 0 400 "bad" (by omega)
    (fun k hk => absurd hk (by omega)) rfl (by omega) (by omega)
  have h3 := (claim3_retry_policy (fun k => if k = 0 then
      (ReqOutcome.timeout "t" : ReqOutcome Unit) else ReqOutcome.httpError 404 "nf")
    2 1).2.1 1 404 "nf" (by omega)
    (fun k hk => by
      have hk0 : k = 0 := by omega
      subst hk0
      exact trivial)
    rfl (by omega) (by omega)
  refine ⟨h1.1, h1.2.1.trans (by rfl), h1.2.2.trans ?_, h2.2.1, h3.2.1,
    h3.2.2.trans (by rfl), h3.1.trans (by rfl)⟩
  norm_num [List.range']

/-- Claim C10: the retrying request primitive always terminates — for
every network behaviour and every starting `retry_count ≤ max_retries`
it makes at most `max_retries - retry_count + 1` attempts (so at most
`max_retries + 1` from `retry_count = 0`) and then either returns a
response or raises a `VLMAPIError`. -/
theorem claim10_make_request_terminates {ρ : Type} (net : Nat → ReqOutcome ρ)
    (mr : Nat) (rd : ℚ) (rc : Nat) (hrc : rc ≤ mr) :
    (make_request net mr rd rc).attempts ≤ mr - rc + 1 ∧
    ((∃ r, (make_request net mr rd rc).result = Except.ok r) ∨
      (∃ e, (make_request net mr rd rc).result = Except.error e)) := by
  refine ⟨make_request_attempts_le net mr rd (mr - rc) rc (le_refl _), ?_⟩
  cases hres : (make_request net mr rd rc).result with
  | ok r => exact Or.inl ⟨r, rfl⟩
  | error e => exact Or.inr ⟨e, rfl⟩

/-- Witness for claim C10 at `max_retries = 2`, `retry_count = 0`, with
an always-failing transport. -/
theorem claim10_witness :
    0 ≤ 2 ∧
    (make_request (fun _ => (ReqOutcome.requestError "refused" : ReqOutcome Unit))
      2 1 0).attempts ≤ 2 - 0 + 1 :=
  ⟨by omega,
    (claim10_make_request_terminates
      (fun _ => (ReqOutcome.requestError "refused" : ReqOutcome Unit)) 2 1 0 (by omega)).1⟩

end OcrVlm
